import Mathlib

/-!
Verification of the scheduling/retry/reconciliation loop of
`custom_components/ha_continuous_casting_dashboard/dashboard_caster.py`
(class `HaContinuousCastingDashboard`).

Times of day are modelled as seconds since midnight (`Nat`).  Python values
that the code tests with `is None` / truthiness are modelled by `PyVal`.
The external `catt` process is modelled by explicit behaviour parameters
(the decoded stdout of a status call, the exit behaviour of a command), and
Python's exception classes and `except` clause matching by `PyExcClass`.
-/

/-- Seconds since midnight for a wall-clock `HH:MM` time (the code parses
`start_time` / `end_time` with `strptime(_, '%H:%M')`, so they have zero
seconds). -/
def timeOfHM (h m : Nat) : Nat := h * 3600 + m * 60

/-- `datetime.strptime('23:59', '%H:%M').time()` used in the window check. -/
def lastMinute : Nat := timeOfHM 23 59

/-- The condition at the top of each cycle of `start()` (line 110):
`self.start_time <= now <= 23:59  or  00:00 <= now < self.end_time`. -/
def inWindowCond (startT endT now : Nat) : Bool :=
  (decide (startT ≤ now) && decide (now ≤ lastMinute))
    || (decide (0 ≤ now) && decide (now < endT))

/-- Modelled from the spec: the reference interval logic of the claim —
when `start > end` the window wraps midnight and `now` is inside iff
`now >= start` or `now < end`; otherwise inside iff `start <= now < end`. -/
def refInWindow (startT endT now : Nat) : Bool :=
  if endT < startT then decide (startT ≤ now) || decide (now < endT)
  else decide (startT ≤ now) && decide (now < endT)

/-- A Python value as far as the loop inspects one: `None`, a `bool`, or a
`str`. -/
inductive PyVal where
  | none : PyVal
  | bool : Bool → PyVal
  | str : String → PyVal
deriving DecidableEq, Repr

/-- Python truthiness of the values above (`None` and `""` are falsy). -/
def pyTruthy : PyVal → Bool
  | .none => false
  | .bool b => b
  | .str s => decide (s ≠ "")

/-- The `x is None` test. -/
def pyIsNone : PyVal → Bool
  | .none => true
  | _ => false

/-- `b.isPrefixOf`-style check written out on lists. -/
def leadsList : List Char → List Char → Bool
  | [], _ => true
  | _ :: _, [] => false
  | a :: as, b :: bs => a == b && leadsList as bs

/-- Python's `pat in s` substring test. -/
def strContains (s pat : String) : Bool :=
  s.toList.tails.any (fun t => leadsList pat.toList t)

/-- The value `check_status` hands back to its callers on the paths where it
returns: `None` when a caught exception fired, the decoded stdout otherwise. -/
def check_status_result : Option String → PyVal
  | .none => PyVal.none
  | .some s => PyVal.str s

/-- `check_both_states` (lines 62–74): returns `False` when the status output
`is None` or is falsy (empty); otherwise returns whether the dashboard state
token or `"PLAYING"` occurs in the output.  Its codomain is kept as `PyVal`
because the caller in `start()` tests the result with `is None`. -/
def check_both_states_val (token : String) (statusRet : PyVal) : PyVal :=
  if pyIsNone statusRet || !pyTruthy statusRet then PyVal.bool false
  else
    match statusRet with
    | PyVal.str s => PyVal.bool (strContains s token || strContains s "PLAYING")
    | _ => PyVal.bool false

/-- `self.max_retries` (set in `__init__`, line 20). -/
def max_retries : Nat := 5

/-- `self.retry_delay` in seconds (set in `__init__`, line 21). -/
def retry_delay : Nat := 30

/-- Observable outcome of the per-device evaluation inside the window
(lines 111–128 of `start()`): how many status invocations ran, how many
`retry_delay` sleeps happened, how many times `cast_dashboard` was invoked,
whether the device was logged as playing, whether the `while`-`else`
exhaustion branch ran, and whether the trailing `cast_delay` sleep of the
`for` body ran. -/
structure DevTrace where
  queries : Nat
  retrySleeps : Nat
  casts : Nat
  confirmedActive : Bool
  exhausted : Bool
  castDelaySleep : Bool
deriving DecidableEq, Repr

/-- The `while retry_count < self.max_retries` loop of `start()`, driven by
the oracle `q` giving the result of the `k`-th status invocation for this
device (`none` = the invocation failed on a path `check_status` catches).
Each `check_both_states` call performs one status invocation; note the loop
body calls it once for the `is None` test and, when that is false, a second
time for the `elif` truthiness test.  `fuel` is the number of remaining
iterations (`max_retries - retry_count`); `idx`, `nq`, `sleeps` accumulate
the oracle position, query count and `retry_delay` sleep count. -/
def evalLoop (token : String) (q : Nat → Option String) :
    Nat → Nat → Nat → Nat → DevTrace
  | 0, _, nq, sleeps => ⟨nq, sleeps, 0, false, true, false⟩
  | fuel + 1, idx, nq, sleeps =>
    let r1 := check_both_states_val token (check_status_result (q idx))
    if pyIsNone r1 then
      evalLoop token q fuel (idx + 1) (nq + 1) (sleeps + 1)
    else
      let r2 := check_both_states_val token (check_status_result (q (idx + 1)))
      if pyTruthy r2 then ⟨nq + 2, sleeps, 0, true, false, true⟩
      else ⟨nq + 2, sleeps, 1, false, false, true⟩

/-- One device's evaluation inside the window: the retry loop entered with
`retry_count = 0`. -/
def evalDevice (token : String) (q : Nat → Option String) : DevTrace :=
  evalLoop token q max_retries 0 0 0

/-- The Python exception classes relevant to the code's `try`/`except`
blocks. `timeoutErrorBuiltin` is `asyncio.TimeoutError` (the builtin
`TimeoutError`, an `OSError`, since CPython 3.11; in no CPython version is
it a `subprocess.TimeoutExpired`). -/
inductive PyExcClass where
  | exceptionBase
  | oSErrorCls
  | valueErrorCls
  | unicodeErrorCls
  | unicodeDecodeErrorCls
  | subprocessErrorCls
  | calledProcessErrorCls
  | timeoutExpiredCls
  | timeoutErrorBuiltin
  | fileNotFoundErrorCls
deriving DecidableEq, Repr

/-- The class itself followed by its superclass chain up to `Exception`,
following CPython's hierarchy. -/
def ancestors : PyExcClass → List PyExcClass
  | .exceptionBase => [.exceptionBase]
  | .oSErrorCls => [.oSErrorCls, .exceptionBase]
  | .valueErrorCls => [.valueErrorCls, .exceptionBase]
  | .unicodeErrorCls => [.unicodeErrorCls, .valueErrorCls, .exceptionBase]
  | .unicodeDecodeErrorCls =>
      [.unicodeDecodeErrorCls, .unicodeErrorCls, .valueErrorCls, .exceptionBase]
  | .subprocessErrorCls => [.subprocessErrorCls, .exceptionBase]
  | .calledProcessErrorCls =>
      [.calledProcessErrorCls, .subprocessErrorCls, .exceptionBase]
  | .timeoutExpiredCls => [.timeoutExpiredCls, .subprocessErrorCls, .exceptionBase]
  | .timeoutErrorBuiltin => [.timeoutErrorBuiltin, .oSErrorCls, .exceptionBase]
  | .fileNotFoundErrorCls => [.fileNotFoundErrorCls, .oSErrorCls, .exceptionBase]

/-- An `except C` clause catches exception `e` iff `e`'s class is `C` or a
subclass of `C`. -/
def catches (e target : PyExcClass) : Bool :=
  (ancestors e).any (fun a => a == target)

/-- A `try` block with clauses `hs` handles `e` iff some clause catches it. -/
def handledBy (hs : List PyExcClass) (e : PyExcClass) : Bool :=
  hs.any (fun h => catches e h)

/-- The `except` clauses of `check_status` (lines 42–50):
`subprocess.CalledProcessError`, `subprocess.TimeoutExpired`, `ValueError`. -/
def check_status_handlers : List PyExcClass :=
  [.calledProcessErrorCls, .timeoutExpiredCls, .valueErrorCls]

/-- The `except` clauses of `cast_dashboard` (lines 93–99):
`subprocess.CalledProcessError`, `ValueError`, `asyncio.TimeoutError`. -/
def cast_dashboard_handlers : List PyExcClass :=
  [.calledProcessErrorCls, .valueErrorCls, .timeoutErrorBuiltin]

/-- Behaviour of one `catt ... status` invocation.  `communicate` never
raises on a non-zero exit code (only `subprocess.run(check=True)`-style
helpers raise `CalledProcessError`), so a finished process just yields its
stdout; `decodes` is whether `stdout.decode()` succeeds. -/
inductive StatusBehavior where
  | finished (decodes : Bool) (text : String)
  | hangs
  | spawnRaises (e : PyExcClass)
deriving DecidableEq, Repr

/-- The exception the body of `check_status` raises under a behaviour, if
any: a hang makes `asyncio.wait_for` raise `asyncio.TimeoutError`; a failed
`stdout.decode()` raises `UnicodeDecodeError`. -/
def statusRaises : StatusBehavior → Option PyExcClass
  | .finished true _ => none
  | .finished false _ => some .unicodeDecodeErrorCls
  | .hangs => some .timeoutErrorBuiltin
  | .spawnRaises e => some e

/-- `check_status` (lines 36–50) under a behaviour of the external process:
`Except.ok` is a normal return (the decoded stdout, or `None` from a caught
exception's handler); `Except.error e` is an exception that escapes the
`try`/`except` clauses and propagates to the caller. -/
def check_status_run (b : StatusBehavior) : Except PyExcClass PyVal :=
  match statusRaises b with
  | none =>
    match b with
    | .finished _ t => .ok (PyVal.str t)
    | _ => .ok PyVal.none
  | some e => if handledBy check_status_handlers e then .ok PyVal.none else .error e

/-- One `catt` invocation: its argument vector and the timeout (in seconds)
of the `asyncio.wait_for` wrapping its await, `none` when the await is a
bare `process.wait()` with no timeout. -/
structure Command where
  args : List String
  timeLimit : Option Nat
deriving DecidableEq, Repr

/-- The status invocation of `check_status` (lines 38–39): wrapped in
`asyncio.wait_for(..., timeout=10)`. -/
def statusCommand (d : String) : Command :=
  ⟨["catt", "-d", d, "status"], some 10⟩

/-- The four commands of `cast_dashboard` (lines 81–92), in program order,
each awaited through `asyncio.wait_for(process.wait(), timeout=10)`. -/
def castCommands (d url : String) : List Command :=
  [⟨["catt", "-d", d, "stop"], some 10⟩,
   ⟨["catt", "-d", d, "volume", "0"], some 10⟩,
   ⟨["catt", "-d", d, "cast_site", url], some 10⟩,
   ⟨["catt", "-d", d, "volume", "50"], some 10⟩]

/-- The stop command issued in the outside-window branch of `start()`
(lines 136–137): awaited with a bare `process.wait()`, no timeout. -/
def outsideStop (d : String) : Command :=
  ⟨["catt", "-d", d, "stop"], none⟩

/-- Behaviour of one command of the cast sequence: the process finishes
within the timeout with the given exit code, or it hangs past the timeout,
or spawning/awaiting it raises an exception. -/
inductive CmdBehavior where
  | finished (exitCode : Int)
  | hangs
  | spawnRaises (e : PyExcClass)
deriving DecidableEq, Repr

/-- How `cast_dashboard` ends: all four commands ran; or an exception was
caught by one of its `except` clauses and logged (the remaining commands are
skipped); or an exception escaped the clauses and propagates. -/
inductive CastOutcome where
  | completed
  | abortedLogged (e : PyExcClass)
  | uncaught (e : PyExcClass)
deriving DecidableEq, Repr

/-- The exception a command's await raises under a behaviour, if any.  A
non-zero exit code raises nothing: the code never inspects `returncode` and
`process.wait()` does not raise on failure exits. -/
def cmdRaises : CmdBehavior → Option PyExcClass
  | .finished _ => none
  | .hangs => some .timeoutErrorBuiltin
  | .spawnRaises e => some e

/-- The body of `cast_dashboard`'s `try` block: run the commands in order;
the `i`-th command behaves as `beh i`.  Returns the commands issued (in
order) and the outcome. -/
def runCastCmds (beh : Nat → CmdBehavior) :
    List Command → Nat → List Command × CastOutcome
  | [], _ => ([], .completed)
  | c :: rest, i =>
    match cmdRaises (beh i) with
    | none =>
      let r := runCastCmds beh rest (i + 1)
      (c :: r.1, r.2)
    | some e =>
      if handledBy cast_dashboard_handlers e then ([c], .abortedLogged e)
      else ([c], .uncaught e)

/-- `cast_dashboard` (lines 77–100) for a device and URL under command
behaviours `beh`. -/
def cast_dashboard_run (d url : String) (beh : Nat → CmdBehavior) :
    List Command × CastOutcome :=
  runCastCmds beh (castCommands d url) 0

/-- An observable step of the outside-window sweep: a `catt` invocation, or
an `asyncio.sleep(self.cast_delay)` pause. -/
inductive SweepEvent where
  | cmd (c : Command)
  | castDelayPause
deriving DecidableEq, Repr

/-- The outside-window branch of `start()` (lines 130–147): iterate the
device table in order with `ha_cast_active` initially false; for a device
whose `check_dashboard_state` result (the raw status output, `status d`
here) is truthy, issue the untimed stop, set the flag, and pause
`cast_delay`; otherwise `continue` with no command and no pause.  After the
loop, sleep `cast_delay` once iff the flag was never set.  (The
`except subprocess.CalledProcessError` around the stop is dead:
`create_subprocess_exec` / `process.wait()` never raise it.) -/
def outsideSweep (status : String → PyVal) :
    List String → Bool → List SweepEvent
  | [], active => if active then [] else [SweepEvent.castDelayPause]
  | d :: rest, active =>
    if pyTruthy (status d) then
      SweepEvent.cmd (outsideStop d) :: SweepEvent.castDelayPause ::
        outsideSweep status rest true
    else
      outsideSweep status rest active

/-- An uppercase attribute of Python's `logging` module, as
`getattr(logging, name, None)` sees it. -/
inductive LoggingAttr where
  | intAttr (n : Int)
  | strAttr (s : String)
deriving DecidableEq, Repr

/-- `str.upper()` for the ASCII names involved here, written structurally so
it reduces on concrete strings. -/
def upperString (s : String) : String :=
  String.mk (s.toList.map Char.toUpper)

/-- `getattr(logging, u, None)` for an uppercase lookup key `u` (the code
always uppercases first): the level constants, plus `BASIC_FORMAT` which is
the only other all-uppercase attribute of the module. -/
def loggingGetattr (u : String) : Option LoggingAttr :=
  if u = "CRITICAL" then some (.intAttr 50)
  else if u = "FATAL" then some (.intAttr 50)
  else if u = "ERROR" then some (.intAttr 40)
  else if u = "WARNING" then some (.intAttr 30)
  else if u = "WARN" then some (.intAttr 30)
  else if u = "INFO" then some (.intAttr 20)
  else if u = "DEBUG" then some (.intAttr 10)
  else if u = "NOTSET" then some (.intAttr 0)
  else if u = "BASIC_FORMAT" then
    some (.strAttr "%(levelname)s:%(name)s:%(message)s")
  else none

/-- Lines 29–33 of `__init__`: read `logging_level` (default `"info"`),
uppercase it, look it up in the `logging` module, and raise `ValueError`
unless the result is an `int`; on success the numeric level is set. -/
def initLoggingLevel (loggingLevel : Option String) : Except String Int :=
  let logLevel := loggingLevel.getD "info"
  match loggingGetattr (upperString logLevel) with
  | some (.intAttr n) => .ok n
  | some (.strAttr _) => .error ("Invalid log level: " ++ logLevel)
  | none => .error ("Invalid log level: " ++ logLevel)

/-- Modelled from the spec: a "standard severity name" of the `logging`
module — any case variant of one of its standard level names. -/
def standardSeverityName (s : String) : Bool :=
  let u := upperString s
  u = "DEBUG" || u = "INFO" || u = "WARNING" || u = "WARN" || u = "ERROR"
    || u = "CRITICAL" || u = "FATAL" || u = "NOTSET"

/-! ## Helper lemmas -/

theorem check_both_states_val_isBool (token : String) (r : PyVal) :
    ∃ b, check_both_states_val token r = PyVal.bool b := by
  unfold check_both_states_val
  split
  · exact ⟨false, rfl⟩
  · cases r with
    | none => exact ⟨false, rfl⟩
    | bool b => exact ⟨false, rfl⟩
    | str s => exact ⟨_, rfl⟩

theorem pyIsNone_check_both_states (token : String) (r : PyVal) :
    pyIsNone (check_both_states_val token r) = false := by
  obtain ⟨b, hb⟩ := check_both_states_val_isBool token r
  rw [hb]; rfl

theorem evalLoop_succ (token : String) (q : Nat → Option String)
    (fuel idx nq sleeps : Nat) :
    evalLoop token q (fuel + 1) idx nq sleeps =
      if pyTruthy (check_both_states_val token (check_status_result (q (idx + 1))))
      then ⟨nq + 2, sleeps, 0, true, false, true⟩
      else ⟨nq + 2, sleeps, 1, false, false, true⟩ := by
  simp [evalLoop, pyIsNone_check_both_states]

theorem evalDevice_cases (token : String) (q : Nat → Option String) :
    evalDevice token q = ⟨2, 0, 0, true, false, true⟩ ∨
      evalDevice token q = ⟨2, 0, 1, false, false, true⟩ := by
  unfold evalDevice max_retries
  rw [show (5 : Nat) = 4 + 1 from rfl, evalLoop_succ]
  split
  · exact Or.inl rfl
  · exact Or.inr rfl

theorem outsideSweep_eq (status : String → PyVal) :
    ∀ (devs : List String) (a : Bool),
      outsideSweep status devs a =
        (devs.map (fun d => if pyTruthy (status d) then
            [SweepEvent.cmd (outsideStop d), SweepEvent.castDelayPause]
          else [])).flatten
          ++ (if a || devs.any (fun d => pyTruthy (status d)) then []
              else [SweepEvent.castDelayPause])
  | [], a => by simp [outsideSweep]
  | d :: rest, a => by
    by_cases h : pyTruthy (status d)
    · simp [outsideSweep, h, outsideSweep_eq status rest true]
    · simp [outsideSweep, h, outsideSweep_eq status rest a]

theorem cast_handles_timeout :
    handledBy cast_dashboard_handlers PyExcClass.timeoutErrorBuiltin = true := by
  decide

/-! ## Claims -/

/-- C1: the window check of `start()` does not implement the reference
interval logic.  The code always applies the midnight-wraparound formula
(`start <= now <= 23:59 or 00:00 <= now < end`), so for the non-wrapping
window start=08:00, end=20:00 it classifies now=21:00 as inside, while the
reference logic (and the code's own "allowed range" purpose) puts 21:00
outside the window. -/
theorem c1_window_check_code_bug :
    inWindowCond (timeOfHM 8 0) (timeOfHM 20 0) (timeOfHM 21 0) = true ∧
      refInWindow (timeOfHM 8 0) (timeOfHM 20 0) (timeOfHM 21 0) = false := by
  decide

/-- C2: for a device whose every status invocation fails (on a path
`check_status` catches, so `check_both_states` sees `None`), the per-device
evaluation does not retry five times: `check_both_states` converts the
failure to `False`, the `is None` retry branch is skipped, and the first
iteration already runs the cast sequence — 2 status queries, 0 retry
sleeps, 1 cast, no exhaustion. -/
theorem c2_retry_exhaustion_code_bug :
    evalDevice "Dummy" (fun _ => Option.none) = ⟨2, 0, 1, false, false, true⟩ :=
  rfl

/-- C3: `check_both_states` never returns `None`: its result is always a
`bool`, a failed status query (`None`) and an empty status output both
become `False` (indistinguishable from a successful "inactive" result), so
the `is None` retry branch of the caller can never be taken and the
per-device evaluation never performs a retry sleep nor reaches exhaustion. -/
theorem c3_check_both_states_never_none (token : String) (o : Option String)
    (q : Nat → Option String) :
    pyIsNone (check_both_states_val token (check_status_result o)) = false ∧
      (∃ b, check_both_states_val token (check_status_result o) = PyVal.bool b) ∧
      check_both_states_val token (check_status_result Option.none)
        = PyVal.bool false ∧
      check_both_states_val token (check_status_result (some ""))
        = check_both_states_val token (check_status_result Option.none) ∧
      (evalDevice token q).retrySleeps = 0 ∧
      (evalDevice token q).exhausted = false := by
  refine ⟨pyIsNone_check_both_states token _, check_both_states_val_isBool token _,
    rfl, rfl, ?_, ?_⟩ <;>
    rcases evalDevice_cases token q with h | h <;> rw [h]

/-- C4: a hung status invocation is not converted to the `None` failure
result: `asyncio.wait_for` raises `asyncio.TimeoutError`, which none of
`check_status`'s `except` clauses (`CalledProcessError`,
`subprocess.TimeoutExpired`, `ValueError`) catches, so the exception
escapes `check_status` (and hence the loop).  A decode failure, by
contrast, is caught via `ValueError` and does return `None`. -/
theorem c4_status_timeout_uncaught :
    check_status_run StatusBehavior.hangs
        = Except.error PyExcClass.timeoutErrorBuiltin ∧
      handledBy check_status_handlers PyExcClass.timeoutErrorBuiltin = false ∧
      check_status_run (StatusBehavior.finished false "") = Except.ok PyVal.none :=
  ⟨rfl, rfl, rfl⟩

/-- C5 counterexample: not every collaborator invocation is
timeout-bounded — with one device whose status output is truthy, the
outside-window sweep issues a stop command whose await carries no timeout
(`process.wait()` with no `asyncio.wait_for`). -/
theorem c5_outside_stop_unbounded_cx :
    outsideSweep (fun _ => PyVal.str "x") ["tv"] false
        = [SweepEvent.cmd ⟨["catt", "-d", "tv", "stop"], Option.none⟩,
           SweepEvent.castDelayPause] ∧
      (outsideStop "tv").timeLimit = Option.none :=
  ⟨rfl, rfl⟩

/-- C5 amended: the status invocation and each of the four cast-sequence
commands are bounded by a 10-second timeout, but the outside-window stop
command is awaited with no timeout at all. -/
theorem c5_command_timeouts_amended (d url : String) :
    (statusCommand d).timeLimit = some 10 ∧
      (castCommands d url).all (fun c => c.timeLimit == some 10) = true ∧
      (outsideStop d).timeLimit = Option.none :=
  ⟨rfl, rfl, rfl⟩

/-- C6: the outside-window sweep, in device-table order, emits for each
device whose dashboard-state query result is truthy exactly one stop
command immediately followed by one `cast_delay` pause, and for each other
device nothing at all; a single trailing `cast_delay` pause follows iff no
device was truthy. -/
theorem c6_outside_sweep_per_device (status : String → PyVal)
    (devs : List String) :
    outsideSweep status devs false =
      (devs.map (fun d => if pyTruthy (status d) then
          [SweepEvent.cmd (outsideStop d), SweepEvent.castDelayPause]
        else [])).flatten
        ++ (if devs.any (fun d => pyTruthy (status d)) then []
            else [SweepEvent.castDelayPause]) := by
  simpa using outsideSweep_eq status devs false

/-- C7: for a device whose first status invocation fails (caught, `None`)
and whose second reports the dashboard state, the evaluation performs
exactly 2 query attempts but zero `retry_delay` pauses — the failure is
converted to `False` before the `is None` test, so contrary to the claim no
retry pause elapses — and no cast is issued; in general at most one cast is
issued per device per cycle. -/
theorem c7_fail_then_active_code_bug :
    evalDevice "Dummy"
        (fun n => if n = 0 then Option.none else some "state: Dummy")
        = ⟨2, 0, 0, true, false, true⟩ ∧
      ∀ (token : String) (q : Nat → Option String),
        (evalDevice token q).casts ≤ 1 := by
  refine ⟨rfl, fun token q => ?_⟩
  rcases evalDevice_cases token q with h | h <;> simp [h]

/-- C8 counterexample: a cast-sequence command that completes with a
non-zero exit code is not treated as a failure — with the first command
(stop) exiting 1, all four commands are still issued and the sequence
reports normal completion, contradicting "if any command fails or times
out, no later command of the sequence is issued". -/
theorem c8_exit_code_cx :
    cast_dashboard_run "tv" "u"
        (fun i => if i = 0 then CmdBehavior.finished 1 else CmdBehavior.finished 0)
        = (castCommands "tv" "u", CastOutcome.completed) ∧
      (castCommands "tv" "u").length = 4 :=
  ⟨rfl, rfl⟩

/-- C8 amended: the cast sequence issues the 4 commands stop, volume(0),
cast_site(url), volume(50) in order, each bounded by a 10-second timeout;
when every command finishes within its timeout (regardless of exit code)
all 4 are issued; when the k-th command hangs past its timeout after the
earlier ones finished, exactly the first k+1 commands are issued and the
timeout is caught and logged (`abortedLogged`); exit codes are never
inspected, so only timeouts (or raised exceptions) abort the sequence. -/
theorem c8_cast_sequence_amended (d url : String) (beh : Nat → CmdBehavior) :
    (castCommands d url).all (fun c => c.timeLimit == some 10) = true ∧
      ((∀ i, i < 4 → ∃ n, beh i = CmdBehavior.finished n) →
        cast_dashboard_run d url beh = (castCommands d url, CastOutcome.completed)) ∧
      (∀ k, k < 4 → (∀ j, j < k → ∃ n, beh j = CmdBehavior.finished n) →
        beh k = CmdBehavior.hangs →
        cast_dashboard_run d url beh =
          ((castCommands d url).take (k + 1),
           CastOutcome.abortedLogged PyExcClass.timeoutErrorBuiltin)) := by
  refine ⟨rfl, ?_, ?_⟩
  · intro h
    obtain ⟨n0, h0⟩ := h 0 (by omega)
    obtain ⟨n1, h1⟩ := h 1 (by omega)
    obtain ⟨n2, h2⟩ := h 2 (by omega)
    obtain ⟨n3, h3⟩ := h 3 (by omega)
    simp [cast_dashboard_run, castCommands, runCastCmds, cmdRaises, h0, h1, h2, h3]
  · intro k hk hprev hhang
    interval_cases k
    · simp [cast_dashboard_run, castCommands, runCastCmds, cmdRaises, hhang,
        cast_handles_timeout]
    · obtain ⟨n0, h0⟩ := hprev 0 (by omega)
      simp [cast_dashboard_run, castCommands, runCastCmds, cmdRaises, h0, hhang,
        cast_handles_timeout]
    · obtain ⟨n0, h0⟩ := hprev 0 (by omega)
      obtain ⟨n1, h1⟩ := hprev 1 (by omega)
      simp [cast_dashboard_run, castCommands, runCastCmds, cmdRaises, h0, h1,
        hhang, cast_handles_timeout]
    · obtain ⟨n0, h0⟩ := hprev 0 (by omega)
      obtain ⟨n1, h1⟩ := hprev 1 (by omega)
      obtain ⟨n2, h2⟩ := hprev 2 (by omega)
      simp [cast_dashboard_run, castCommands, runCastCmds, cmdRaises, h0, h1, h2,
        hhang, cast_handles_timeout]

/-- C8 witness: the amended theorem applied at two concrete behaviours —
all commands finishing, and the second command hanging. -/
theorem c8_cast_sequence_amended_witness :
    cast_dashboard_run "tv" "u" (fun _ => CmdBehavior.finished 0)
        = (castCommands "tv" "u", CastOutcome.completed) ∧
      cast_dashboard_run "tv" "u"
          (fun i => if i = 0 then CmdBehavior.finished 0 else CmdBehavior.hangs)
        = ((castCommands "tv" "u").take 2,
           CastOutcome.abortedLogged PyExcClass.timeoutErrorBuiltin) := by
  constructor
  · exact (c8_cast_sequence_amended "tv" "u" _).2.1 (fun i _ => ⟨0, rfl⟩)
  · refine (c8_cast_sequence_amended "tv" "u" _).2.2 1 (by omega) ?_ rfl
    intro j hj
    interval_cases j
    exact ⟨0, rfl⟩

theorem segs_pause_count (status : String → PyVal) :
    ∀ devs : List String,
      ((devs.map (fun d => if pyTruthy (status d) then
          [SweepEvent.cmd (outsideStop d), SweepEvent.castDelayPause]
        else [])).flatten).countP (fun e => e == SweepEvent.castDelayPause)
        = devs.countP (fun d => pyTruthy (status d))
  | [] => by simp
  | d :: rest => by
    by_cases h : pyTruthy (status d)
    · simp [h, segs_pause_count status rest, List.countP_cons]
    · simp [h, segs_pause_count status rest, List.countP_cons]

/-- C9: in the outside-window sweep the total number of `cast_delay` pauses
is one per stopped (truthy) device, plus exactly one trailing pause iff no
device was truthy: the sweep is a body holding exactly one pause per
stopped device, followed by the single courtesy pause exactly when
`ha_cast_active` stayed false. -/
theorem c9_trailing_sleep_count (status : String → PyVal) (devs : List String) :
    (outsideSweep status devs false).countP (fun e => e == SweepEvent.castDelayPause)
        = devs.countP (fun d => pyTruthy (status d))
          + (if devs.any (fun d => pyTruthy (status d)) then 0 else 1) ∧
      ∃ body,
        outsideSweep status devs false
            = body ++ (if devs.any (fun d => pyTruthy (status d)) then []
                       else [SweepEvent.castDelayPause]) ∧
        body.countP (fun e => e == SweepEvent.castDelayPause)
            = devs.countP (fun d => pyTruthy (status d)) := by
  have he := outsideSweep_eq status devs false
  have hc := segs_pause_count status devs
  constructor
  · rw [he]
    by_cases hany : devs.any (fun d => pyTruthy (status d))
    · simp [hany, List.countP_append, hc]
    · simp [hany, List.countP_append, hc]
  · exact ⟨_, by simpa using he, hc⟩

/-- C10: lines 29–33 of `__init__` raise `ValueError` exactly when the
configured `logging_level` is not (a case variant of) a standard `logging`
severity name, and an absent `logging_level` defaults to `"info"` (level
20), so construction succeeds; the check runs in the constructor, before
`start()` can ever be called. -/
theorem c10_logging_level_validation (s : String) :
    ((∃ n, initLoggingLevel (some s) = Except.ok n)
        ↔ standardSeverityName s = true) ∧
      initLoggingLevel Option.none = Except.ok 20 := by
  constructor
  · simp only [initLoggingLevel, loggingGetattr, standardSeverityName, Option.getD]
    split_ifs with h1 h2 h3 h4 h5 h6 h7 h8 h9 <;> simp_all
  · rfl
